import Mathlib

set_option autoImplicit false

/-!
Shallow embedding of `prefect_sqlalchemy/credentials.py`.

The module defines a `DatabaseCredentials` block that builds a connection
URL from discrete parameters or an explicit `url`, eagerly starts a
SQLAlchemy engine during `block_initialization`, and memoizes result sets
of fetch-style calls in `_unique_results`, keyed by a content hash of the
execute inputs.

Two models are given:
* the initialization / engine lifecycle (`Config`, `Block`,
  `blockInitialization`, `getEngine`, `close`), and
* the fetch memoization state machine (`DBState`, `getResultSet`,
  `fetchOne` / `fetchMany` / `fetchAll`, `resetCursorResults`).

External library objects are modelled by the data the code passes to them:
`URL.create(**kwargs)` by the record of keyword arguments it receives,
`text(operation)` by the operation string (Prefect's `hash_objects` is a
content hash, so a `TextClause` is determined by its text), a SQLAlchemy
`CursorResult` by the list of rows the database returns for the inputs
together with a cursor position, and an `Engine` by its construction
arguments plus an allocation counter distinguishing separately created
engine objects.
-/

namespace PrefectSqlalchemy

/-- Known dialects with their corresponding async drivers
(the `AsyncDriver` enum of the source). -/
inductive AsyncDriver where
  | postgresqlAsyncpg
  | sqliteAiosqlite
  | mysqlAsyncmy
  | mysqlAiomysql
deriving DecidableEq

/-- String value of an `AsyncDriver` member. -/
def AsyncDriver.value : AsyncDriver → String
  | .postgresqlAsyncpg => "postgresql+asyncpg"
  | .sqliteAiosqlite => "sqlite+aiosqlite"
  | .mysqlAsyncmy => "mysql+asyncmy"
  | .mysqlAiomysql => "mysql+aiomysql"

/-- Known dialects with their corresponding sync drivers
(the `SyncDriver` enum of the source). -/
inductive SyncDriver where
  | postgresqlPsycopg2
  | postgresqlPg8000
  | postgresqlPsycopg2cffi
  | postgresqlPypostgresql
  | postgresqlPygresql
  | mysqlMysqldb
  | mysqlPymysql
  | mysqlMysqlconnector
  | mysqlCymysql
  | mysqlOursql
  | mysqlPyodbc
  | sqlitePysqlite
  | sqlitePysqlcipher
  | oracleCxOracle
  | mssqlPyodbc
  | mssqlMxodbc
  | mssqlPymssql
deriving DecidableEq

/-- String value of a `SyncDriver` member. -/
def SyncDriver.value : SyncDriver → String
  | .postgresqlPsycopg2 => "postgresql+psycopg2"
  | .postgresqlPg8000 => "postgresql+pg8000"
  | .postgresqlPsycopg2cffi => "postgresql+psycopg2cffi"
  | .postgresqlPypostgresql => "postgresql+pypostgresql"
  | .postgresqlPygresql => "postgresql+pygresql"
  | .mysqlMysqldb => "mysql+mysqldb"
  | .mysqlPymysql => "mysql+pymysql"
  | .mysqlMysqlconnector => "mysql+mysqlconnector"
  | .mysqlCymysql => "mysql+cymysql"
  | .mysqlOursql => "mysql+oursql"
  | .mysqlPyodbc => "mysql+pyodbc"
  | .sqlitePysqlite => "sqlite+pysqlite"
  | .sqlitePysqlcipher => "sqlite+pysqlcipher"
  | .oracleCxOracle => "oracle+cx_oracle"
  | .mssqlPyodbc => "mssql+pyodbc"
  | .mssqlMxodbc => "mssql+mxodbc"
  | .mssqlPymssql => "mssql+pymssql"

/-- Membership test `drivername in AsyncDriver._value2member_map_`. -/
def isAsyncDriverValue (s : String) : Bool :=
  s == "postgresql+asyncpg" || s == "sqlite+aiosqlite" ||
  s == "mysql+asyncmy" || s == "mysql+aiomysql"

/-- The `driver` field: `Union[AsyncDriver, SyncDriver, str]`. -/
inductive DriverSpec where
  | ofAsync (d : AsyncDriver)
  | ofSync (d : SyncDriver)
  | ofStr (s : String)
deriving DecidableEq

/-- The pydantic fields of `DatabaseCredentials`.  A `SecretStr` password is
represented by its secret string, a query / connect-args dict by an
association list. -/
structure Config where
  driver : Option DriverSpec := none
  username : Option String := none
  password : Option String := none
  database : Option String := none
  host : Option String := none
  port : Option String := none
  query : Option (List (String × String)) := none
  url : Option String := none
  connectArgs : Option (List (String × String)) := none
  fetchSize : Nat := 1
deriving DecidableEq

/-- Python truthiness of an optional string: `None` and the empty string
are falsy.  Pydantic's `SecretStr` is also truthy iff its inner value is. -/
def truthyStr : Option String → Bool
  | none => false
  | some s => !s.isEmpty

/-- Python truthiness of an optional dict: `None` and the empty dict are
falsy. -/
def truthyDict : Option (List (String × String)) → Bool
  | none => false
  | some l => !l.isEmpty

/-- The `drivername` local of `block_initialization`: the enum value for an
enum member, the string itself otherwise (possibly `None`). -/
def Config.drivername (c : Config) : Option String :=
  match c.driver with
  | some (DriverSpec.ofAsync d) => some d.value
  | some (DriverSpec.ofSync d) => some d.value
  | some (DriverSpec.ofStr s) => some s
  | none => none

/-- The `_driver_is_async` flag assigned by `block_initialization`: true for
an `AsyncDriver` member, false for a `SyncDriver` member, and otherwise a
membership test of the raw string in the async value map (false for `None`). -/
def Config.driverIsAsync (c : Config) : Bool :=
  match c.driver with
  | some (DriverSpec.ofAsync _) => true
  | some (DriverSpec.ofSync _) => false
  | some (DriverSpec.ofStr s) => isAsyncDriverValue s
  | none => false

/-- The password entry of `url_params`:
`self.password.get_secret_value() if self.password else None`. -/
def Config.passwordValue (c : Config) : Option String :=
  if truthyStr c.password then c.password else none

/-- The `url_params` dict built by `block_initialization`. -/
structure UrlParams where
  drivername : Option String
  username : Option String
  password : Option String
  database : Option String
  host : Option String
  port : Option String
  query : Option (List (String × String))
deriving DecidableEq

/-- The `url_params` dict of a given configuration. -/
def Config.urlParams (c : Config) : UrlParams :=
  { drivername := c.drivername
    username := c.username
    password := c.passwordValue
    database := c.database
    host := c.host
    port := c.port
    query := c.query }

/-- `any(val for val in url_params.values())`: some value of the dict is
truthy. -/
def UrlParams.anyTruthy (p : UrlParams) : Bool :=
  truthyStr p.drivername || truthyStr p.username || truthyStr p.password ||
  truthyStr p.database || truthyStr p.host || truthyStr p.port ||
  truthyDict p.query

/-- The `rendered_url` attribute.  `URL.create` receives exactly the
entries of `url_params` that are not `None`, which is the same data as the
record of optional parameters; `make_url(str(self.url))` is determined by
the url string. -/
inductive RenderedUrl where
  | ofParams (p : UrlParams)
  | ofUrl (s : String)
deriving DecidableEq

/-- A SQLAlchemy engine, modelled by the arguments `get_engine` passes to
`create_engine` / `create_async_engine` plus an allocation id that
distinguishes separately created engine objects. -/
structure Engine where
  url : Option RenderedUrl
  connectArgs : List (String × String)
  isAsync : Bool
  eid : Nat
deriving DecidableEq

/-- The errors `block_initialization` can raise. -/
inductive InitError where
  | missingUrlParams
  | urlConflict
deriving DecidableEq

/-- The sync / async mismatch `ValueError` raised by `close`,
`reset_connections` and their async counterparts. -/
inductive UsageError where
  | wrongConcurrencyMode
deriving DecidableEq

/-- The runtime state of a `DatabaseCredentials` object: its configuration
together with the private attributes set by initialization.  `nextEid`
counts engine allocations so that distinct engine objects are
distinguishable. -/
structure Block where
  conf : Config
  renderedUrl : Option RenderedUrl := none
  driverIsAsync : Bool := false
  engine : Option Engine := none
  exitStackStarted : Bool := false
  resultsStarted : Bool := false
  nextEid : Nat := 0
deriving DecidableEq

/-- A freshly constructed block: no private attribute is set yet. -/
def Block.fresh (c : Config) : Block := { conf := c }

/-- `get_engine`: if an engine already exists return it, otherwise create a
new engine from the rendered url and connect args (`self.connect_args or
an empty dict`).  Note that the newly created engine is returned but NOT
stored on the block. -/
def getEngine (b : Block) : Engine × Block :=
  match b.engine with
  | some e => (e, b)
  | none =>
    let e : Engine :=
      { url := b.renderedUrl
        connectArgs := b.conf.connectArgs.getD []
        isAsync := b.driverIsAsync
        eid := b.nextEid }
    (e, { b with nextEid := b.nextEid + 1 })

/-- `_start_engine`: store the engine returned by `get_engine`. -/
def startEngine (b : Block) : Block :=
  let r := getEngine b
  { r.2 with engine := some r.1 }

/-- The url-resolution part of `block_initialization`: if `url` is falsy,
require truthy `drivername` and `database` and build the rendered url from
the non-None `url_params`; if `url` is truthy, reject any truthy
`url_params` value and render the given url. -/
def renderUrl (c : Config) : Except InitError RenderedUrl :=
  let p := c.urlParams
  if !truthyStr c.url then
    if !(truthyStr p.drivername && truthyStr p.database) then
      Except.error InitError.missingUrlParams
    else
      Except.ok (RenderedUrl.ofParams p)
  else
    if p.anyTruthy then
      Except.error InitError.urlConflict
    else
      Except.ok (RenderedUrl.ofUrl (c.url.getD ""))

/-- `block_initialization`: classify the driver, resolve the url (raising a
`ValueError` on conflict or missing required params), then start the
engine, the exit stack and the unique-results dict for whichever of them
is not already set. -/
def blockInitialization (b : Block) : Except InitError Block :=
  match renderUrl b.conf with
  | Except.error e => Except.error e
  | Except.ok rendered =>
    let b1 : Block :=
      { b with driverIsAsync := b.conf.driverIsAsync, renderedUrl := some rendered }
    let b2 := if b1.engine.isNone then startEngine b1 else b1
    let b3 := if !b2.exitStackStarted then { b2 with exitStackStarted := true } else b2
    let b4 := if !b3.resultsStarted then { b3 with resultsStarted := true } else b3
    Except.ok b4

/-- `close`: raise on an async driver, otherwise reset connections, dispose
the engine and clear the stored engine handle. -/
def Block.close (b : Block) : Except UsageError Block :=
  if b.driverIsAsync then Except.error UsageError.wrongConcurrencyMode
  else Except.ok { b with engine := none }

/-- A row returned by the database. -/
abbrev Row := List String

/-- The content that `hash_objects` receives from the fetch methods:
`statement=text(operation)`, `parameters`, and the `execution_options`
kwargs.  The `TextClause` is content-hashed, hence represented by the
operation string. -/
structure Inputs where
  statement : String
  parameters : Option (List (String × String))
  executionOptions : List (String × String)
deriving DecidableEq

/-- A `CursorResult`: the rows produced by the execution together with the
cursor position of how many have been consumed. -/
structure ResultSet where
  rows : List Row
  pos : Nat
deriving DecidableEq

/-- `CursorResult.fetchone`: the next row, advancing the cursor; `None`
once exhausted. -/
def ResultSet.fetchone (r : ResultSet) : Option Row × ResultSet :=
  match r.rows[r.pos]? with
  | some row => (some row, { r with pos := r.pos + 1 })
  | none => (none, r)

/-- `CursorResult.fetchmany(size)`: up to `size` next rows, advancing the
cursor by the number actually returned. -/
def ResultSet.fetchmany (size : Nat) (r : ResultSet) : List Row × ResultSet :=
  let out := (r.rows.drop r.pos).take size
  (out, { r with pos := r.pos + out.length })

/-- `CursorResult.fetchall`: all remaining rows, exhausting the cursor. -/
def ResultSet.fetchall (r : ResultSet) : List Row × ResultSet :=
  (r.rows.drop r.pos, { r with pos := r.rows.length })

/-- The fetch-relevant state of the block: the `_unique_results` dict (an
insertion-ordered association list from input hash to live result set) and
a log of the executions performed on the database, in order. -/
structure DBState (Hash : Type) where
  uniqueResults : List (Hash × ResultSet)
  executions : List Inputs
deriving DecidableEq

/-- Dict lookup on the association list. -/
def lookupRS {Hash : Type} [DecidableEq Hash] (h : Hash) :
    List (Hash × ResultSet) → Option ResultSet
  | [] => none
  | (k, v) :: rest => if k = h then some v else lookupRS h rest

/-- Dict assignment to an existing key: replace the value at the first
occurrence of the key, leaving everything else unchanged. -/
def updateRS {Hash : Type} [DecidableEq Hash] (h : Hash) (v : ResultSet) :
    List (Hash × ResultSet) → List (Hash × ResultSet)
  | [] => []
  | (k, w) :: rest => if k = h then (k, v) :: rest else (k, w) :: updateRS h v rest

/-- `dict.pop(key)`: drop the first occurrence of the key. -/
def removeKey {Hash : Type} [DecidableEq Hash] (h : Hash) :
    List (Hash × ResultSet) → List (Hash × ResultSet)
  | [] => []
  | (k, v) :: rest => if k = h then rest else (k, v) :: removeKey h rest

/-- `_get_result_set`: hash the inputs; on a miss open a tracked connection,
execute, and store the fresh result set under the hash (appended, as dict
insertion order); on a hit return the stored result set without executing.
The database is abstracted as a function from inputs to the rows their
execution produces; the execution log records each actual execution. -/
def getResultSet {Hash : Type} [DecidableEq Hash] (hashf : Inputs → Hash)
    (db : Inputs → List Row) (inputs : Inputs) (s : DBState Hash) :
    ResultSet × DBState Hash :=
  let ih := hashf inputs
  match lookupRS ih s.uniqueResults with
  | none =>
    let rs : ResultSet := { rows := db inputs, pos := 0 }
    (rs, { uniqueResults := s.uniqueResults ++ [(ih, rs)],
           executions := s.executions ++ [inputs] })
  | some rs => (rs, s)

/-- Python `size or fetch_size`: `None` and `0` fall back to the block's
`fetch_size`. -/
def pyOrNat : Option Nat → Nat → Nat
  | none, d => d
  | some 0, d => d
  | some (n + 1), _ => n + 1

/-- `fetch_one`: get the (new or cached) result set for the inputs and
consume one row from it.  The cursor advance is written back to the dict,
modelling the in-place mutation of the shared `CursorResult`. -/
def fetchOne {Hash : Type} [DecidableEq Hash] (hashf : Inputs → Hash)
    (db : Inputs → List Row) (operation : String)
    (parameters : Option (List (String × String)))
    (executionOptions : List (String × String)) (s : DBState Hash) :
    Option Row × DBState Hash :=
  let inputs : Inputs :=
    { statement := operation, parameters := parameters
      executionOptions := executionOptions }
  let r := getResultSet hashf db inputs s
  let f := r.1.fetchone
  (f.1, { r.2 with uniqueResults := updateRS (hashf inputs) f.2 r.2.uniqueResults })

/-- `fetch_many`: get the (new or cached) result set and consume
`size or fetch_size` rows from it. -/
def fetchMany {Hash : Type} [DecidableEq Hash] (hashf : Inputs → Hash)
    (db : Inputs → List Row) (fetchSize : Nat) (size : Option Nat)
    (operation : String) (parameters : Option (List (String × String)))
    (executionOptions : List (String × String)) (s : DBState Hash) :
    List Row × DBState Hash :=
  let inputs : Inputs :=
    { statement := operation, parameters := parameters
      executionOptions := executionOptions }
  let r := getResultSet hashf db inputs s
  let f := r.1.fetchmany (pyOrNat size fetchSize)
  (f.1, { r.2 with uniqueResults := updateRS (hashf inputs) f.2 r.2.uniqueResults })

/-- `fetch_all`: get the (new or cached) result set and consume all its
remaining rows. -/
def fetchAll {Hash : Type} [DecidableEq Hash] (hashf : Inputs → Hash)
    (db : Inputs → List Row) (operation : String)
    (parameters : Option (List (String × String)))
    (executionOptions : List (String × String)) (s : DBState Hash) :
    List Row × DBState Hash :=
  let inputs : Inputs :=
    { statement := operation, parameters := parameters
      executionOptions := executionOptions }
  let r := getResultSet hashf db inputs s
  let f := r.1.fetchall
  (f.1, { r.2 with uniqueResults := updateRS (hashf inputs) f.2 r.2.uniqueResults })

/-- `_reset_cursor_results`: pop every key of the dict (closing each cursor;
close failures are logged and skipped, leaving the dict effect the same). -/
def resetCursorResults {Hash : Type} [DecidableEq Hash] (s : DBState Hash) :
    DBState Hash :=
  let hashes := s.uniqueResults.map Prod.fst
  { s with uniqueResults := hashes.foldl (fun m ih => removeKey ih m) s.uniqueResults }

/-- Which of the three fetch methods a call uses (with `fetch_many`'s
optional `size` argument). -/
inductive FetchKind where
  | one
  | many (size : Option Nat)
  | all
deriving DecidableEq

/-- The value returned by a fetch call: a single optional row for
`fetch_one`, a list of rows for `fetch_many` / `fetch_all`. -/
inductive FetchResult where
  | single (r : Option Row)
  | multiple (rs : List Row)
deriving DecidableEq

/-- Dispatch a fetch call of the given kind. -/
def runFetch {Hash : Type} [DecidableEq Hash] (hashf : Inputs → Hash)
    (db : Inputs → List Row) (fetchSize : Nat) (k : FetchKind)
    (operation : String) (parameters : Option (List (String × String)))
    (executionOptions : List (String × String)) (s : DBState Hash) :
    FetchResult × DBState Hash :=
  match k with
  | FetchKind.one =>
    let r := fetchOne hashf db operation parameters executionOptions s
    (FetchResult.single r.1, r.2)
  | FetchKind.many size =>
    let r := fetchMany hashf db fetchSize size operation parameters executionOptions s
    (FetchResult.multiple r.1, r.2)
  | FetchKind.all =>
    let r := fetchAll hashf db operation parameters executionOptions s
    (FetchResult.multiple r.1, r.2)

/-- The rows a fetch of kind `k` returns when its result set holds `rows`
with the cursor at `pos`. -/
def expectedResult (fetchSize : Nat) (k : FetchKind) (rows : List Row) (pos : Nat) :
    FetchResult :=
  match k with
  | FetchKind.one => FetchResult.single rows[pos]?
  | FetchKind.many size =>
    FetchResult.multiple ((rows.drop pos).take (pyOrNat size fetchSize))
  | FetchKind.all => FetchResult.multiple (rows.drop pos)

/-- The cursor position after a fetch of kind `k` on a result set holding
`rows` with the cursor at `pos`. -/
def nextPos (fetchSize : Nat) (k : FetchKind) (rows : List Row) (pos : Nat) : Nat :=
  match k with
  | FetchKind.one =>
    match rows[pos]? with
    | some _ => pos + 1
    | none => pos
  | FetchKind.many size => pos + ((rows.drop pos).take (pyOrNat size fetchSize)).length
  | FetchKind.all => rows.length

/-! Helper lemmas about the association-list dict operations. -/

theorem lookupRS_append_self {Hash : Type} [DecidableEq Hash] (h : Hash) (v : ResultSet)
    (l : List (Hash × ResultSet)) (hl : lookupRS h l = none) :
    lookupRS h (l ++ [(h, v)]) = some v := by
  induction l with
  | nil => simp [lookupRS]
  | cons kv rest ih =>
    obtain ⟨k, w⟩ := kv
    simp only [lookupRS] at hl
    by_cases hk : k = h
    · rw [if_pos hk] at hl
      exact absurd hl (by simp)
    · rw [if_neg hk] at hl
      simpa [lookupRS, hk] using ih hl

theorem updateRS_append_self {Hash : Type} [DecidableEq Hash] (h : Hash) (v w : ResultSet)
    (l : List (Hash × ResultSet)) (hl : lookupRS h l = none) :
    updateRS h v (l ++ [(h, w)]) = l ++ [(h, v)] := by
  induction l with
  | nil => simp [updateRS]
  | cons kv rest ih =>
    obtain ⟨k, u⟩ := kv
    simp only [lookupRS] at hl
    by_cases hk : k = h
    · rw [if_pos hk] at hl
      exact absurd hl (by simp)
    · rw [if_neg hk] at hl
      simp [updateRS, hk, ih hl]

theorem map_fst_updateRS {Hash : Type} [DecidableEq Hash] (h : Hash) (v : ResultSet)
    (l : List (Hash × ResultSet)) :
    (updateRS h v l).map Prod.fst = l.map Prod.fst := by
  induction l with
  | nil => rfl
  | cons kv rest ih =>
    obtain ⟨k, w⟩ := kv
    by_cases hk : k = h <;> simp [updateRS, hk, ih]

theorem not_mem_of_lookupRS_none {Hash : Type} [DecidableEq Hash] (h : Hash)
    (l : List (Hash × ResultSet)) (hl : lookupRS h l = none) :
    h ∉ l.map Prod.fst := by
  induction l with
  | nil => simp
  | cons kv rest ih =>
    obtain ⟨k, w⟩ := kv
    simp only [lookupRS] at hl
    by_cases hk : k = h
    · rw [if_pos hk] at hl
      exact absurd hl (by simp)
    · rw [if_neg hk] at hl
      simp only [List.map_cons, List.mem_cons]
      rintro (he | hm)
      · exact hk he.symm
      · exact ih hl hm

theorem foldl_removeKey_self {Hash : Type} [DecidableEq Hash]
    (l : List (Hash × ResultSet)) :
    (l.map Prod.fst).foldl (fun m ih => removeKey ih m) l = [] := by
  induction l with
  | nil => rfl
  | cons kv rest ih =>
    obtain ⟨k, v⟩ := kv
    have hstep : removeKey k ((k, v) :: rest) = rest := by simp [removeKey]
    simp only [List.map_cons, List.foldl_cons, hstep]
    exact ih

/-! Behaviour of a single fetch call on a cache miss and on a cache hit. -/

theorem runFetch_fresh {Hash : Type} [DecidableEq Hash] (hashf : Inputs → Hash)
    (db : Inputs → List Row) (fetchSize : Nat) (k : FetchKind) (op : String)
    (params : Option (List (String × String))) (opts : List (String × String))
    (s : DBState Hash)
    (hfresh : lookupRS (hashf ⟨op, params, opts⟩) s.uniqueResults = none) :
    runFetch hashf db fetchSize k op params opts s =
      (expectedResult fetchSize k (db ⟨op, params, opts⟩) 0,
       { uniqueResults := s.uniqueResults ++
           [(hashf ⟨op, params, opts⟩,
             { rows := db ⟨op, params, opts⟩
               pos := nextPos fetchSize k (db ⟨op, params, opts⟩) 0 })]
         executions := s.executions ++ [⟨op, params, opts⟩] }) := by
  have hupd := fun v => updateRS_append_self (hashf ⟨op, params, opts⟩) v
      { rows := db ⟨op, params, opts⟩, pos := 0 } s.uniqueResults hfresh
  cases k with
  | one =>
    cases hrow : (db ⟨op, params, opts⟩)[0]? with
    | none =>
      simp [runFetch, fetchOne, getResultSet, hfresh, ResultSet.fetchone, hrow,
        expectedResult, nextPos, hupd]
    | some row =>
      simp [runFetch, fetchOne, getResultSet, hfresh, ResultSet.fetchone, hrow,
        expectedResult, nextPos, hupd]
  | many size =>
    simp [runFetch, fetchMany, getResultSet, hfresh, ResultSet.fetchmany,
      expectedResult, nextPos, hupd]
  | all =>
    simp [runFetch, fetchAll, getResultSet, hfresh, ResultSet.fetchall,
      expectedResult, nextPos, hupd]

theorem runFetch_cached {Hash : Type} [DecidableEq Hash] (hashf : Inputs → Hash)
    (db : Inputs → List Row) (fetchSize : Nat) (k : FetchKind) (op : String)
    (params : Option (List (String × String))) (opts : List (String × String))
    (s : DBState Hash) (rows : List Row) (p : Nat)
    (hhit : lookupRS (hashf ⟨op, params, opts⟩) s.uniqueResults =
      some { rows := rows, pos := p }) :
    runFetch hashf db fetchSize k op params opts s =
      (expectedResult fetchSize k rows p,
       { s with uniqueResults :=
           (updateRS (hashf ⟨op, params, opts⟩)
             (⟨rows, nextPos fetchSize k rows p⟩ : ResultSet) s.uniqueResults) }) := by
  cases k with
  | one =>
    cases hrow : rows[p]? with
    | none =>
      simp [runFetch, fetchOne, getResultSet, hhit, ResultSet.fetchone, hrow,
        expectedResult, nextPos]
    | some row =>
      simp [runFetch, fetchOne, getResultSet, hhit, ResultSet.fetchone, hrow,
        expectedResult, nextPos]
  | many size =>
    simp [runFetch, fetchMany, getResultSet, hhit, ResultSet.fetchmany,
      expectedResult, nextPos]
  | all =>
    simp [runFetch, fetchAll, getResultSet, hhit, ResultSet.fetchall,
      expectedResult, nextPos]

/-! Helper lemmas about the engine lifecycle. -/

theorem startEngine_renderedUrl (b : Block) :
    (startEngine b).renderedUrl = b.renderedUrl := by
  cases hme : b.engine <;> simp [startEngine, getEngine, hme]

theorem startEngine_engine_isSome (b : Block) :
    (startEngine b).engine.isSome = true := by
  cases hme : b.engine <;> simp [startEngine, getEngine, hme]

/-! Concrete inputs used by the witnesses below. -/

/-- Concrete execute inputs for the memoization witness. -/
def c1Inputs : Inputs :=
  { statement := "SELECT 1", parameters := none, executionOptions := [] }

/-- Concrete database: three rows for the witness query, nothing else. -/
def c1Db : Inputs → List Row := fun _ => [["a"], ["b"], ["c"]]

/-- Witness start state: empty cache, no executions yet. -/
def c1S0 : DBState Inputs := { uniqueResults := [], executions := [] }

/-- Witness state after the first fetch call (`fetch_one`). -/
def c1S1 : DBState Inputs :=
  { uniqueResults := [(c1Inputs, { rows := c1Db c1Inputs, pos := 1 })]
    executions := [c1Inputs] }

/-- Witness state after the second fetch call (`fetch_all`). -/
def c1S2 : DBState Inputs :=
  { uniqueResults := [(c1Inputs, { rows := c1Db c1Inputs, pos := 3 })]
    executions := [c1Inputs] }

/-- C1: for any two consecutive fetch calls (fetch_one, fetch_many or
fetch_all, in any combination) with identical operation text, parameters
and execution options, starting from a state whose cache does not yet hold
the input hash: the first call executes the operation exactly once and
stores the result set under the hash; the second call performs no further
execution and returns the rows of that same first execution continuing
from where the first call left the cursor; afterwards the cache holds the
input hash exactly once (and keys stay duplicate-free), and
`_reset_cursor_results` empties the cache. -/
theorem claim_C1_fetch_memoization {Hash : Type} [DecidableEq Hash]
    (hashf : Inputs → Hash) (db : Inputs → List Row) (fetchSize : Nat)
    (k1 k2 : FetchKind) (op : String)
    (params : Option (List (String × String))) (opts : List (String × String))
    (s s1 s2 : DBState Hash) (r1 r2 : FetchResult)
    (hfresh : lookupRS (hashf ⟨op, params, opts⟩) s.uniqueResults = none)
    (hnodup : (s.uniqueResults.map Prod.fst).Nodup)
    (h1 : runFetch hashf db fetchSize k1 op params opts s = (r1, s1))
    (h2 : runFetch hashf db fetchSize k2 op params opts s1 = (r2, s2)) :
    s1.executions = s.executions ++ [⟨op, params, opts⟩] ∧
    s2.executions = s1.executions ∧
    r1 = expectedResult fetchSize k1 (db ⟨op, params, opts⟩) 0 ∧
    r2 = expectedResult fetchSize k2 (db ⟨op, params, opts⟩)
      (nextPos fetchSize k1 (db ⟨op, params, opts⟩) 0) ∧
    (s2.uniqueResults.map Prod.fst).Nodup ∧
    (s2.uniqueResults.map Prod.fst).count (hashf ⟨op, params, opts⟩) = 1 ∧
    (resetCursorResults s2).uniqueResults = [] := by
  rw [runFetch_fresh hashf db fetchSize k1 op params opts s hfresh] at h1
  injection h1 with hr1 hs1
  subst hr1
  subst hs1
  have hlook := lookupRS_append_self (hashf ⟨op, params, opts⟩)
    { rows := db ⟨op, params, opts⟩
      pos := nextPos fetchSize k1 (db ⟨op, params, opts⟩) 0 }
    s.uniqueResults hfresh
  rw [runFetch_cached hashf db fetchSize k2 op params opts _
    (db ⟨op, params, opts⟩) (nextPos fetchSize k1 (db ⟨op, params, opts⟩) 0)
    hlook] at h2
  injection h2 with hr2 hs2
  subst hr2
  subst hs2
  have hnm := not_mem_of_lookupRS_none (hashf ⟨op, params, opts⟩)
    s.uniqueResults hfresh
  refine ⟨rfl, rfl, rfl, rfl, ?_, ?_, ?_⟩
  · simp [map_fst_updateRS, List.nodup_append, hnodup, hnm]
  · simp [map_fst_updateRS, List.count_append,
      List.count_eq_zero_of_not_mem hnm]
  · simp only [resetCursorResults]
    exact foldl_removeKey_self _

/-- Witness for C1: `fetch_one` then `fetch_all` of the same query on an
empty cache; the second call returns the remaining two rows of the single
execution and no second execution happens. -/
theorem claim_C1_fetch_memoization_witness :
    (lookupRS (id c1Inputs) c1S0.uniqueResults = none ∧
     (c1S0.uniqueResults.map Prod.fst).Nodup ∧
     runFetch id c1Db 1 FetchKind.one "SELECT 1" none [] c1S0 =
       (FetchResult.single (some ["a"]), c1S1) ∧
     runFetch id c1Db 1 FetchKind.all "SELECT 1" none [] c1S1 =
       (FetchResult.multiple [["b"], ["c"]], c1S2)) ∧
    (c1S1.executions = c1S0.executions ++ [⟨"SELECT 1", none, []⟩] ∧
     c1S2.executions = c1S1.executions ∧
     FetchResult.single (some ["a"]) =
       expectedResult 1 FetchKind.one (c1Db ⟨"SELECT 1", none, []⟩) 0 ∧
     FetchResult.multiple [["b"], ["c"]] =
       expectedResult 1 FetchKind.all (c1Db ⟨"SELECT 1", none, []⟩)
         (nextPos 1 FetchKind.one (c1Db ⟨"SELECT 1", none, []⟩) 0) ∧
     (c1S2.uniqueResults.map Prod.fst).Nodup ∧
     (c1S2.uniqueResults.map Prod.fst).count (id ⟨"SELECT 1", none, []⟩) = 1 ∧
     (resetCursorResults c1S2).uniqueResults = []) :=
  ⟨⟨rfl, List.nodup_nil, by decide, by decide⟩,
   claim_C1_fetch_memoization id c1Db 1 FetchKind.one FetchKind.all "SELECT 1"
     none [] c1S0 c1S1 c1S2 (FetchResult.single (some ["a"]))
     (FetchResult.multiple [["b"], ["c"]]) rfl List.nodup_nil
     (by decide) (by decide)⟩

/-- Concrete configuration used for claim C2: a sync sqlite driver with a
database name, nothing else. -/
def c2Config : Config :=
  { driver := some (DriverSpec.ofSync SyncDriver.sqlitePysqlite)
    database := some "prefect.db" }

/-- The `url_params` of `c2Config`. -/
def c2Params : UrlParams :=
  { drivername := some "sqlite+pysqlite", username := none, password := none
    database := some "prefect.db", host := none, port := none, query := none }

/-- The engine created while initializing `c2Config` from fresh. -/
def c2Engine : Engine :=
  { url := some (RenderedUrl.ofParams c2Params), connectArgs := []
    isAsync := false, eid := 0 }

/-- The block produced by initializing `c2Config` from fresh: the engine is
already started. -/
def c2Block : Block :=
  { conf := c2Config, renderedUrl := some (RenderedUrl.ofParams c2Params)
    driverIsAsync := false, engine := some c2Engine
    exitStackStarted := true, resultsStarted := true, nextEid := 1 }

/-- C2 counterexample: the claim says the engine is created lazily on first
use and not at initialization, but for the concrete configuration
`c2Config` the engine handle is already present in the block returned by
`block_initialization`, before any use: `_start_engine` runs eagerly
inside `block_initialization`. -/
theorem claim_C2_counterexample :
    blockInitialization (Block.fresh c2Config) = Except.ok c2Block ∧
    c2Block.engine.isSome = true :=
  ⟨rfl, rfl⟩

/-- C2 (amended): the engine handle is created eagerly during block
initialization (matching the class docstring, which says an engine is
created upon instantiating); every subsequent engine request returns that
same stored engine with the block unchanged, until `close` disposes the
engine and clears the stored handle. -/
theorem claim_C2_engine_lifecycle (b bi : Block)
    (hinit : blockInitialization b = Except.ok bi) :
    bi.engine.isSome = true ∧
    (∀ e, bi.engine = some e → getEngine bi = (e, bi)) ∧
    (∀ bc, bi.close = Except.ok bc → bc.engine = none) := by
  refine ⟨?_, ?_, ?_⟩
  · unfold blockInitialization at hinit
    split at hinit
    · simp at hinit
    · simp only [Except.ok.injEq] at hinit
      subst hinit
      cases hme : b.engine with
      | none =>
        simp [hme, apply_ite Block.engine, startEngine_engine_isSome]
      | some e =>
        simp [hme, apply_ite Block.engine, startEngine_engine_isSome]
  · intro e he
    simp [getEngine, he]
  · intro bc hc
    unfold Block.close at hc
    split at hc
    · simp at hc
    · simp only [Except.ok.injEq] at hc
      subst hc
      rfl

/-- Witness for the amended C2 at the concrete configuration `c2Config`. -/
theorem claim_C2_engine_lifecycle_witness :
    blockInitialization (Block.fresh c2Config) = Except.ok c2Block ∧
    (c2Block.engine.isSome = true ∧
     (∀ e, c2Block.engine = some e → getEngine c2Block = (e, c2Block)) ∧
     (∀ bc, c2Block.close = Except.ok bc → bc.engine = none)) :=
  ⟨rfl, claim_C2_engine_lifecycle (Block.fresh c2Config) c2Block rfl⟩

/-- C3: supplying a truthy `url` together with any truthy discrete URL
parameter (drivername, username, password, database, host, port or query)
makes `block_initialization` raise the mutual-exclusion `ValueError`. -/
theorem claim_C3_url_conflict (b : Block)
    (hurl : truthyStr b.conf.url = true)
    (hparams : b.conf.urlParams.anyTruthy = true) :
    blockInitialization b = Except.error InitError.urlConflict := by
  simp [blockInitialization, renderUrl, hurl, hparams]

/-- Concrete configuration for the C3 witness: an explicit url plus a
truthy driver name. -/
def c3Config : Config :=
  { driver := some (DriverSpec.ofStr "snowflake")
    url := some "snowflake://user:pw@account/db" }

/-- Witness for C3 at the concrete configuration `c3Config`. -/
theorem claim_C3_url_conflict_witness :
    (truthyStr (Block.fresh c3Config).conf.url = true ∧
     (Block.fresh c3Config).conf.urlParams.anyTruthy = true) ∧
    blockInitialization (Block.fresh c3Config) =
      Except.error InitError.urlConflict :=
  ⟨⟨rfl, rfl⟩, claim_C3_url_conflict (Block.fresh c3Config) rfl rfl⟩

/-- C4: with no (truthy) `url`, `block_initialization` raises the
missing-parameters `ValueError` whenever the required drivername or
database is missing (falsy), and when both are present it succeeds with
the rendered url built by `URL.create` from the non-None `url_params`. -/
theorem claim_C4_required_params (b : Block)
    (hurl : truthyStr b.conf.url = false) :
    ((truthyStr b.conf.urlParams.drivername &&
        truthyStr b.conf.urlParams.database) = false →
      blockInitialization b = Except.error InitError.missingUrlParams) ∧
    ((truthyStr b.conf.urlParams.drivername &&
        truthyStr b.conf.urlParams.database) = true →
      ∃ bi, blockInitialization b = Except.ok bi ∧
        bi.renderedUrl = some (RenderedUrl.ofParams b.conf.urlParams)) := by
  constructor
  · intro hmiss
    simp [blockInitialization, renderUrl, hurl, hmiss]
  · intro hreq
    have hr : renderUrl b.conf =
        Except.ok (RenderedUrl.ofParams b.conf.urlParams) := by
      simp [renderUrl, hurl, hreq]
    unfold blockInitialization
    rw [hr]
    refine ⟨_, rfl, ?_⟩
    simp [apply_ite Block.renderedUrl, startEngine_renderedUrl]

/-- Concrete configuration for the C4 witness: the async postgres example
of the source docstring. -/
def c4Config : Config :=
  { driver := some (DriverSpec.ofAsync AsyncDriver.postgresqlAsyncpg)
    username := some "prefect"
    password := some "prefect_password"
    database := some "postgres" }

/-- Witness for C4 at the concrete configuration `c4Config`. -/
theorem claim_C4_required_params_witness :
    truthyStr (Block.fresh c4Config).conf.url = false ∧
    (((truthyStr (Block.fresh c4Config).conf.urlParams.drivername &&
         truthyStr (Block.fresh c4Config).conf.urlParams.database) = false →
       blockInitialization (Block.fresh c4Config) =
         Except.error InitError.missingUrlParams) ∧
     ((truthyStr (Block.fresh c4Config).conf.urlParams.drivername &&
         truthyStr (Block.fresh c4Config).conf.urlParams.database) = true →
       ∃ bi, blockInitialization (Block.fresh c4Config) = Except.ok bi ∧
         bi.renderedUrl =
           some (RenderedUrl.ofParams (Block.fresh c4Config).conf.urlParams))) :=
  ⟨rfl, claim_C4_required_params (Block.fresh c4Config) rfl⟩

end PrefectSqlalchemy
